import Mathlib

/-!
# api-dhcpd: resolution API and DHCP daemon

A shallow embedding of `cmd/dhcp-api/main.go` (`getDynamicIP`, `dhcpAPI`) and of
`cmd/dhcp-daemon/main.go` (`handler`), with the properties of the specification
stated over it.

Modelling conventions.

* The Redis store is a total map from keys to hashes; a key that does not exist
  holds the empty hash, which is what `HGETALL` answers for it.
* A Go `map[string]string` and a Redis hash are both finite maps with distinct
  keys (`Hash`).  The order in which `range` visits a map is not fixed by the
  language: every loop takes it from a `RangeOrder`, an arbitrary enumeration
  of the entries.
* `HGetAll` can fail (the code tests `err`); whether the read of a key is
  answered is given by `Env.readOk`.  `HSet` results are discarded by the
  source at every call site; the write is taken as applied.
* `time.Now().UTC().Unix()` is `Env.now`.
-/

namespace DhcpApi

/-! ## Store and Go maps -/

/-- A finite map from field names to values: a Redis hash, or the
`map[string]string` that `HGetAll(..).Result()` hands back. -/
abbrev Hash := AList (fun _ : String => String)

/-- One field of a hash with its value. -/
abbrev Entry := Sigma (fun _ : String => String)

/-- The store: every key holds a hash (the empty one when the key is absent). -/
abbrev Store := String → Hash

/-- The order in which a `range` loop visits the entries of a map: some
enumeration of exactly the entries of the map. -/
structure RangeOrder where
  visit : Hash → List Entry
  perm : ∀ m : Hash, (visit m).Perm m.entries

/-- The Go expression `m[k]` on a `map[string]string`: the value, or `""` when `k` is absent. -/
def Hash.index (m : Hash) (k : String) : String :=
  (m.lookup k).getD ""

/-- The Go expression `len(m)`. -/
def Hash.len (m : Hash) : Nat :=
  m.entries.length

/-- Inbound API JSON. -/
structure dhcpQuery where
  HardwareAddress : String
  ClientID : String
deriving DecidableEq

/-- API response JSON; `LeaseTime` is a `time.Duration` (nanoseconds). -/
structure dhcpResponse where
  HardwareAddress : String := ""
  ClientID : String := ""
  Hostname : String := ""
  ClientIP : String := ""
  GatewayIP : String := ""
  Netmask : String := ""
  Broadcast : String := ""
  Prefix : String := ""
  DNS : String := ""
  Domain : String := ""
  NTP : String := ""
  LeaseTime : Int := 0
  Description : String := ""
  Method : String := ""
  Slave : Bool := false
deriving DecidableEq

/-- The part of the Go package `net` that is not modelled in detail: addresses are
byte lists (`nil` is the empty list), and the IPv6 text forms are left to these
two functions. -/
structure NetLib where
  /-- `net.ParseIP` on text whose first separator is a colon -/
  parseIPv6 : String → List Nat
  /-- `net.IP.String` on a 16 byte address that is not IPv4-mapped, or on a slice
  whose length is not 0, 4 or 16 -/
  stringIPv6 : List Nat → String

/-- What a request of the API process depends on besides the store and the
query: the command line flags, the group snapshots taken at start-up, the
answers of the store connection, the iteration order of maps, the clock, and
the library functions that are not modelled in detail. -/
structure Env where
  /-- flag `-slave` -/
  slave : Bool
  /-- flag `-allow-slave` -/
  allowSlave : Bool
  /-- snapshot of `group:default` taken in `main` -/
  defaultGroup : Hash
  /-- snapshot of `group:pool` taken in `main` -/
  defaultPoolGroup : Hash
  /-- whether `HGetAll` of a key is answered without error during this request -/
  readOk : String → Bool
  /-- iteration order of `range` over maps -/
  order : RangeOrder
  /-- `time.Now().UTC().Unix()` -/
  now : Int
  /-- `time.ParseDuration`, `none` standing for an error -/
  ParseDuration : String → Option Int
  /-- the IPv6 side of package `net` -/
  net : NetLib

/-- The command `client.HGetAll(key)`: the hash at `key`, or `none` when the read fails. -/
def HGetAll (env : Env) (s : Store) (key : String) : Option Hash :=
  if env.readOk key then some (s key) else none

/-- The method `.Result()` of a map command: the map and whether `err != nil`;
on an error the map is `nil`, which behaves as the empty map. -/
def Result (c : Option Hash) : Hash × Bool :=
  match c with
  | some d => (d, false)
  | none => (∅, true)

/-- The command `client.HSet(key, field, value)`, its result discarded. -/
def HSet (s : Store) (key field value : String) : Store :=
  Function.update s key ((s key).insert field value)

/-! ## getDynamicIP -/

/-- The loop `for k, v := range dynamicPool` of `getDynamicIP`, over the entries
in the order they are visited: the first entry with an empty owner is claimed. -/
def rangePool (now : Int) (s : Store) (mac clientID : String) : List Entry → String × Store
  | [] => ("", s)
  | ⟨k, v⟩ :: rest =>
    if v = "" then
      -- Mark dynamic IP allocated for this MAC address
      let s := HSet s "pool" k mac
      -- Set MAC address map for future use
      let s := HSet s ("mac:" ++ mac) "ip" k
      let s := HSet s ("mac:" ++ mac) "description" ("dynamic:" ++ clientID)
      -- go-redis writes the boolean `true` as `1`
      let s := HSet s ("mac:" ++ mac) "dynamic" "1"
      let s := HSet s ("mac:" ++ mac) "ts" (toString now)
      (k, s)
    else rangePool now s mac clientID rest

/-- Get free dynamic IP from the `pool` hash: the returned string and the store
after the call. -/
def getDynamicIP (env : Env) (s : Store) (mac clientID : String) : String × Store :=
  if env.slave && !env.allowSlave then
    -- Cannot allocate new addresses as slave
    ("", s)
  else
    match Result (HGetAll env s "pool") with
    | (_, true) => ("", s)
    | (dynamicPool, false) => rangePool env.now s mac clientID (env.order.visit dynamicPool)

/-! ## Library functions used by dhcpAPI -/

/-- Decimal value of a run of ASCII digits, `none` when another character occurs. -/
def parseDigits : List Char → Nat → Option Nat
  | [], n => some n
  | c :: cs, n =>
    if 48 ≤ c.toNat ∧ c.toNat ≤ 57 then parseDigits cs (n * 10 + (c.toNat - 48)) else none

/-- The function `strconv.Atoi` with its error discarded, as in
`cidrMask, _ := strconv.Atoi(..)`: an optional sign and decimal digits; `0` on a
syntax error, the nearest 64 bit value on a range error. -/
def Atoi (s : String) : Int :=
  match s.data with
  | [] => 0
  | c :: cs =>
    let digits := if c = '-' ∨ c = '+' then cs else c :: cs
    if digits = [] then 0
    else
      match parseDigits digits 0 with
      | none => 0
      | some n =>
        let v : Int := if c = '-' then -(n : Int) else (n : Int)
        if v > 9223372036854775807 then 9223372036854775807
        else if v < -9223372036854775808 then -9223372036854775808
        else v

/-- The bytes of `net.CIDRMask` after the first ones, `l` bytes being left and
`n` one bits still to be placed. -/
def maskBytes : Nat → Nat → List Nat
  | 0, _ => []
  | l + 1, n =>
    if n ≥ 8 then 0xff :: maskBytes l (n - 8)
    else (0xff - (0xff >>> n)) :: maskBytes l 0

/-- The function `net.CIDRMask(ones, bits)`: a mask of `bits/8` bytes with `ones`
leading one bits, `nil` (the empty list) when the arguments are out of range. -/
def CIDRMask (ones bits : Int) : List Nat :=
  if bits ≠ 32 ∧ bits ≠ 128 then []
  else if ones < 0 ∨ ones > bits then []
  else maskBytes (bits / 8).toNat ones.toNat

/-- The twelve bytes that prefix an IPv4 address in 16 byte form. -/
def v4InV6Prefix : List Nat := [0, 0, 0, 0, 0, 0, 0, 0, 0, 0, 0xff, 0xff]

/-- The method `net.IP.Mask`: the address and the mask are brought to the same
length and combined bytewise with `&`; `nil` when the lengths do not match. -/
def IP_Mask (ip mask : List Nat) : List Nat :=
  let mask := if mask.length = 16 ∧ ip.length = 4 ∧ (mask.take 12).all (fun b => b == 0xff)
    then mask.drop 12 else mask
  let ip := if mask.length = 4 ∧ ip.length = 16 ∧ ip.take 12 = v4InV6Prefix
    then ip.drop 12 else ip
  if ip.length ≠ mask.length then [] else List.zipWith (fun a b => a &&& b) ip mask

/-- The method `net.IP.To4`. -/
def IP_To4 (ip : List Nat) : List Nat :=
  if ip.length = 4 then ip
  else if ip.length = 16 ∧ ip.take 12 = v4InV6Prefix then ip.drop 12
  else []

/-- The method `net.IP.String`: `<nil>` for the empty slice, dotted decimal for an
IPv4 address. -/
def IP_String (net : NetLib) (ip : List Nat) : String :=
  if ip.length = 0 then "<nil>"
  else
    match IP_To4 ip with
    | [a, b, c, d] => toString a ++ "." ++ toString b ++ "." ++ toString c ++ "." ++ toString d
    | _ => net.stringIPv6 ip

/-- The scan of a dotted quad: `prev` is the character before the current one,
`val` and `digLen` the value and length of the field being read, `fields` the
fields already closed.  A field has at least one digit, no leading zero and a
value of at most 255; there are exactly four fields.  (Go releases before 1.17
accept leading zeros; no property below depends on such input.) -/
def parseIPv4Fields : List Char → Option Char → Nat → Nat → List Nat → Option (List Nat)
  | [], _, val, _, fields => if fields.length < 3 then none else some (fields ++ [val])
  | c :: cs, prev, val, digLen, fields =>
    if 48 ≤ c.toNat ∧ c.toNat ≤ 57 then
      if digLen = 1 ∧ val = 0 then none
      else
        let val := val * 10 + (c.toNat - 48)
        if val > 255 then none else parseIPv4Fields cs (some c) val (digLen + 1) fields
    else if c = '.' then
      if prev = none ∨ cs = [] ∨ prev = some '.' then none
      else if fields.length = 3 then none
      else parseIPv4Fields cs (some c) 0 0 (fields ++ [val])
    else none

/-- The function `net.ParseIP`: the 16 byte form of the address, `nil` (the empty
list) when the text is not an address.  The first of the characters `.`, `:`,
`%` decides between the IPv4 and the IPv6 syntax. -/
def ParseIP (net : NetLib) (s : String) : List Nat :=
  match s.data.find? (fun c => c = '.' ∨ c = ':' ∨ c = '%') with
  | none => []
  | some c =>
    if c = '.' then
      match parseIPv4Fields s.data none 0 0 [] with
      | some fields => v4InV6Prefix ++ fields
      | none => []
    else if c = ':' then net.parseIPv6 s
    else []

/-! ## dhcpAPI -/

/-- One round of the loop `for k, v := range g` with its `switch k`. -/
def groupField (env : Env) (g : Hash) (r : dhcpResponse) (e : Entry) : dhcpResponse :=
  let k := e.1
  let v := e.2
  if k = "gateway" then
    let cidrMask := Atoi (g.index "prefix")
    { r with GatewayIP := v
             Broadcast := IP_String env.net (IP_Mask (ParseIP env.net v) (CIDRMask cidrMask 32)) }
  else if k = "dns" then { r with DNS := v }
  else if k = "domain" then { r with Domain := v }
  else if k = "ntp" then { r with NTP := v }
  else if k = "lease-time" then
    match env.ParseDuration v with
    | some l => { r with LeaseTime := l }
    | none => r
  else if k = "prefix" then
    let cidrMask := Atoi v
    { r with Prefix := v
             Netmask := IP_String env.net (CIDRMask cidrMask 32) }
  else r

/-- Copy group details to the response. -/
def copyGroup (env : Env) (g : Hash) (r : dhcpResponse) : dhcpResponse :=
  (env.order.visit g).foldl (groupField env g) r

/-- One round of the loop `for k, v := range d` with its `switch k`. -/
def clientField (r : dhcpResponse) (e : Entry) : dhcpResponse :=
  let k := e.1
  let v := e.2
  if k = "ip" then { r with ClientIP := v }
  else if k = "description" then { r with Description := v }
  else if k = "hostname" then { r with Hostname := v }
  else r

/-- Copy client details to the response. -/
def copyClient (env : Env) (d : Hash) (r : dhcpResponse) : dhcpResponse :=
  (env.order.visit d).foldl clientField r

/-- The variables of `dhcpAPI` after the lookup of the binding: the response
`r`, the binding `d`, the group `g` and the store. -/
structure Lookup where
  r : dhcpResponse
  d : Hash
  g : Hash
  s : Store

/-- The part of `dhcpAPI` from `g := defaultGroup` to the end of the
client ID / MAC address / dynamic pool cascade. -/
def lookupBinding (env : Env) (s : Store) (q : dhcpQuery) : Lookup :=
  let g := env.defaultGroup
  -- Build API response
  let r : dhcpResponse := { HardwareAddress := q.HardwareAddress, ClientID := q.ClientID }
  -- Check for client ID
  let d := (Result (HGetAll env s ("client:" ++ q.ClientID))).1
  let err := (Result (HGetAll env s ("client:" ++ q.ClientID))).2
  if err = false ∧ q.ClientID ≠ "" ∧ d.len > 0 then
    { r := { r with Method := "ByClientID" }, d := d, g := g,
      s := HSet s ("client:" ++ q.ClientID) "ts" (toString env.now) }
  else
    -- Check for MAC address
    let d := (Result (HGetAll env s ("mac:" ++ q.HardwareAddress))).1
    let err := (Result (HGetAll env s ("mac:" ++ q.HardwareAddress))).2
    if err = false ∧ q.HardwareAddress ≠ "" ∧ d.len > 0 then
      { r := { r with Method := "ByHardwareAddress" }, d := d, g := g,
        s := HSet s ("mac:" ++ q.HardwareAddress) "ts" (toString env.now) }
    else
      -- Not found, allocate address from dynamic pool
      let r := { r with Method := "Dynamic" }
      let alloc := getDynamicIP env s q.HardwareAddress q.ClientID
      let newIP := alloc.1
      let r := if newIP ≠ "" then { r with ClientIP := newIP } else r
      { r := r, d := d, g := env.defaultPoolGroup, s := alloc.2 }

/-- The group read that follows the cascade: `g` is assigned in both branches,
whatever it held before. -/
def selectGroup (env : Env) (s : Store) (d : Hash) (_g : Hash) : Hash :=
  -- If specific group is defined, overwrite default group
  if d.index "group" ≠ "" then (Result (HGetAll env s ("group:" ++ d.index "group"))).1
  else (Result (HGetAll env s "group:default")).1

/-- The API call, from the decoded query on: the response that is sent and the
store after the request. -/
def dhcpAPI (env : Env) (s : Store) (q : dhcpQuery) : dhcpResponse × Store :=
  let l := lookupBinding env s q
  let g := selectGroup env l.s l.d l.g
  let r := copyGroup env g l.r
  let r := copyClient env l.d r
  (r, l.s)

/-! ## Measures and sample data -/

/-- The number of entries of the `pool` hash with an empty owner. -/
def freeEntries (s : Store) : Nat :=
  ((s "pool").entries.filter (fun e => e.2 = "")).length

/-- A `range` that visits the entries in the order the hash lists them. -/
def storedOrder : RangeOrder :=
  ⟨fun m => m.entries, fun _ => List.Perm.refl _⟩

/-- A `range` that visits the entries in the opposite order. -/
def reversedOrder : RangeOrder :=
  ⟨fun m => m.entries.reverse, fun m => List.reverse_perm m.entries⟩

/-- A `net` package for IPv4 only: no IPv6 text parses. -/
def plainNet : NetLib :=
  ⟨fun _ => [], fun _ => "?"⟩

/-- A sample store: a default and a pool group, a pool with one free address, a
binding by MAC address and a binding by client ID. -/
def sampleStore : Store := fun key =>
  if key = "group:default" then
    AList.insert "gateway" "192.168.1.1" (AList.insert "prefix" "24"
      (AList.insert "lease-time" "2h" ∅))
  else if key = "group:pool" then
    AList.insert "gateway" "10.9.0.1" (AList.insert "prefix" "16" ∅)
  else if key = "pool" then
    AList.insert "10.9.0.50" "" (AList.insert "10.9.0.51" "02:00:00:00:00:07" ∅)
  else if key = "mac:aa:bb:cc:dd:ee:ff" then AList.insert "ip" "192.168.1.50" ∅
  else if key = "client:printer" then AList.insert "ip" "192.168.1.60" ∅
  else ∅

/-- A store whose pool has a free entry under the empty key. -/
def blankKeyStore : Store := fun key =>
  if key = "pool" then AList.insert "" "" ∅ else ∅

/-- An active instance started on `sampleStore`, every read answered. -/
def activeEnv : Env where
  slave := false
  allowSlave := false
  defaultGroup := sampleStore "group:default"
  defaultPoolGroup := sampleStore "group:pool"
  readOk := fun _ => true
  order := storedOrder
  now := 1700000000
  ParseDuration := fun v => if v = "2h" then some 7200000000000 else none
  net := plainNet

/-- A standby instance without the override flag, otherwise as `activeEnv`. -/
def standbyEnv : Env :=
  { activeEnv with slave := true }

/-- The instance `activeEnv` during a request in which the read of
`mac:aa:bb:cc:dd:ee:ff` fails and every other read is answered. -/
def macReadFailsEnv : Env :=
  { activeEnv with readOk := fun key => decide (key ≠ "mac:aa:bb:cc:dd:ee:ff") }

/-- The instance `activeEnv` with maps visited in the opposite order. -/
def reversedEnv : Env :=
  { activeEnv with order := reversedOrder }

/-- A query by a MAC address that has a binding. -/
def knownMac : dhcpQuery :=
  { HardwareAddress := "aa:bb:cc:dd:ee:ff", ClientID := "" }

/-- A query by a client ID that has a binding. -/
def knownClient : dhcpQuery :=
  { HardwareAddress := "aa:bb:cc:dd:ee:ff", ClientID := "printer" }

/-- A query by a MAC address without a binding. -/
def newMac : dhcpQuery :=
  { HardwareAddress := "02:00:00:00:00:01", ClientID := "" }

end DhcpApi

namespace DhcpDaemon

open DhcpApi (dhcpQuery dhcpResponse NetLib ParseIP CIDRMask Atoi v4InV6Prefix)

/-! ## DHCP packets

The packet library (`insomniacslk/dhcp`) is outside the repository.  A packet is
modelled by the header fields `handler` reads or writes and by its option map;
the payload of an option is kept as the typed value it is built from, the wire
encoding being left to the library (for the lease time the typed value is the
number of seconds the library writes). -/

/-- The typed payloads of the options `handler` reads and writes. -/
inductive OptionValue where
  | MessageType (t : Nat)
  | IP (a : List Nat)
  | IPs (l : List (List Nat))
  | IPMask (m : List Nat)
  /-- a `dhcpv4.Duration`, as the whole seconds the library writes (32 bits) -/
  | Duration (seconds : Nat)
  | Labels (l : List String)
  | String (s : String)
  | Generic (b : List Nat)
deriving DecidableEq

/-- The type `dhcpv4.Options`: a map from option codes to payloads. -/
abbrev Options := AList (fun _ : Nat => OptionValue)

/-- The fields of `dhcpv4.DHCPv4` that `handler` uses. -/
structure DHCPv4 where
  OpCode : Nat
  Flags : Nat
  ClientHWAddr : List Nat
  ClientIPAddr : List Nat
  YourIPAddr : List Nat
  GatewayIPAddr : List Nat
  Options : Options
deriving DecidableEq

/-- Destination of a transmission, `net.UDPAddr`. -/
structure UDPAddr where
  IP : List Nat
  Port : Nat
deriving DecidableEq

def OpcodeBootRequest : Nat := 1
def MessageTypeNone : Nat := 0
def MessageTypeDiscover : Nat := 1
def MessageTypeOffer : Nat := 2
def MessageTypeRequest : Nat := 3
def MessageTypeAck : Nat := 5
def MessageTypeNak : Nat := 6
def ServerPort : Nat := 67
def ClientPort : Nat := 68

def OptionSubnetMask : Nat := 1
def OptionRouter : Nat := 3
def OptionDomainNameServer : Nat := 6
def OptionHostName : Nat := 12
def OptionBroadcastAddress : Nat := 28
def OptionNTPServers : Nat := 42
def OptionIPAddressLeaseTime : Nat := 51
def OptionDHCPMessageType : Nat := 53
def OptionServerIdentifier : Nat := 54
def OptionNameServiceSearch : Nat := 117
/-- The code `dhcpv4.OptDomainSearch` writes to (the comment in `handler` says 117). -/
def OptionDNSDomainSearchList : Nat := 119
def OptionClientIdentifier : Nat := 61
def OptionRelayAgentInformation : Nat := 82
def OpcodeBootReply : Nat := 2

/-- The address `net.IPv4bcast`. -/
def IPv4bcast : List Nat := v4InV6Prefix ++ [255, 255, 255, 255]

/-- The address `net.IPv4zero`. -/
def IPv4zero : List Nat := v4InV6Prefix ++ [0, 0, 0, 0]

/-- The address `net.IPv6unspecified`. -/
def IPv6unspecified : List Nat := List.replicate 16 0

/-- The method `net.IP.Equal`: an IPv4 address and its 16 byte form are equal. -/
def IP_Equal (ip x : List Nat) : Bool :=
  if ip.length = x.length then ip == x
  else if ip.length = 4 ∧ x.length = 16 then x.take 12 == v4InV6Prefix && ip == x.drop 12
  else if ip.length = 16 ∧ x.length = 4 then ip.take 12 == v4InV6Prefix && ip.drop 12 == x
  else false

/-- The method `net.IP.IsUnspecified`. -/
def IsUnspecified (ip : List Nat) : Bool :=
  IP_Equal ip IPv4zero || IP_Equal ip IPv6unspecified

/-- The method `DHCPv4.IsBroadcast`: the broadcast bit of the flags. -/
def DHCPv4.IsBroadcast (d : DHCPv4) : Bool :=
  d.Flags &&& 0x8000 == 0x8000

/-- The method `DHCPv4.MessageType`: the value of option 53, `MessageTypeNone`
when the option is absent or is not a message type. -/
def DHCPv4.MessageType (d : DHCPv4) : Nat :=
  match d.Options.lookup OptionDHCPMessageType with
  | some (OptionValue.MessageType t) => t
  | _ => MessageTypeNone

/-- The methods `DHCPv4.UpdateOption` and `Options.Update`: set the payload of a code. -/
def DHCPv4.UpdateOption (d : DHCPv4) (code : Nat) (v : OptionValue) : DHCPv4 :=
  { d with Options := d.Options.insert code v }

/-- The expression `string(req.GetOneOption(dhcpv4.OptionHostName))`: the text of
the host name option, empty when the option is absent. -/
def hostName (req : DHCPv4) : String :=
  match req.Options.lookup OptionHostName with
  | some (OptionValue.String s) => s
  | _ => ""

/-- Two lower case hexadecimal digits of a byte. -/
def hexByte (b : Nat) : String :=
  String.mk [Nat.digitChar (b / 16 % 16), Nat.digitChar (b % 16)]

/-- The method `net.HardwareAddr.String`: the bytes in hexadecimal, separated by colons. -/
def HardwareAddr_String : List Nat → String
  | [] => ""
  | [b] => hexByte b
  | b :: rest => hexByte b ++ ":" ++ HardwareAddr_String rest

/-- The scan of `strings.Split(s, ",")`: `cur` is the field being read, reversed. -/
def splitComma : List Char → List Char → List String
  | [], cur => [String.mk cur.reverse]
  | c :: cs, cur =>
    if c = ',' then String.mk cur.reverse :: splitComma cs [] else splitComma cs (c :: cur)

/-- The function `strings.Split(s, ",")`. -/
def Split (s : String) : List String :=
  splitComma s.data []

/-- What one run of `handler` depends on besides the packet: the flags, the
server ID, the outcome of the heartbeat probe, what the API call leaves in
`apiResponse`, and whether the packet library can build a reply. -/
structure Env where
  /-- flag `-slave` -/
  Slave : Bool
  /-- flag `-allow-slave` -/
  AllowSlave : Bool
  /-- `serverID`, parsed from flag `-id` in `main` -/
  serverID : List Nat
  /-- outcome of `checkHeartbeat()` when it is called -/
  checkHeartbeat : Bool
  /-- what `Post(*APIURL)` with the given body leaves in `apiResponse` (the
  zero value when the call fails: its error is not looked at) -/
  Post : dhcpQuery → dhcpResponse
  /-- whether `dhcpv4.NewReplyFromRequest` returns without error (it fails when
  no transaction ID can be drawn) -/
  replyBuilt : Bool
  /-- the IPv6 side of package `net` -/
  net : NetLib

/-- The modifier `dhcpv4.WithOptionCopied`: the option of the request with this
code, if it has one, is set in the reply. -/
def WithOptionCopied (request : DHCPv4) (code : Nat) (d : DHCPv4) : DHCPv4 :=
  match request.Options.lookup code with
  | some v => d.UpdateOption code v
  | none => d

/-- The function `dhcpv4.NewReplyFromRequest`, `none` standing for an error: a
packet with zero addresses and no options, turned into a reply to the request
(`WithReply`: opcode, hardware address, flags), given its relay agent address
(`WithGatewayIP`), and given its relay agent information and client identifier
options (`WithOptionCopied`). -/
def NewReplyFromRequest (env : Env) (request : DHCPv4) : Option DHCPv4 :=
  if env.replyBuilt then
    let d : DHCPv4 :=
      { OpCode := if request.OpCode = OpcodeBootRequest then OpcodeBootReply
          else OpcodeBootRequest
        Flags := request.Flags
        ClientHWAddr := request.ClientHWAddr
        ClientIPAddr := IPv4zero
        YourIPAddr := IPv4zero
        GatewayIPAddr := request.GatewayIPAddr
        Options := ∅ }
    some (WithOptionCopied request OptionClientIdentifier
      (WithOptionCopied request OptionRelayAgentInformation d))
  else none

/-- The option `dhcpv4.OptIPAddressLeaseTime(d)`: the library writes
`uint32(d / time.Second)`, the whole seconds of the duration in 32 bits. -/
def OptIPAddressLeaseTime (d : Int) : OptionValue :=
  OptionValue.Duration ((Int.tdiv d 1000000000) % 4294967296).toNat

/-- What `handler` does to the outside world, in order. -/
inductive Event where
  /-- the probe `GET /ping` sent to the master -/
  | Heartbeat
  /-- the resolution API called with this query -/
  | Post (q : dhcpQuery)
  /-- `conn.WriteTo(resp.ToBytes(), peer)` -/
  | WriteTo (resp : DHCPv4) (peer : UDPAddr)
deriving DecidableEq

/-- The choice of `peer` in `handler`. -/
def replyPeer (req resp : DHCPv4) : UDPAddr :=
  if !IsUnspecified req.GatewayIPAddr then
    { IP := req.GatewayIPAddr, Port := ServerPort }
  else if resp.MessageType = MessageTypeNak then
    { IP := IPv4bcast, Port := ClientPort }
  else if !IsUnspecified req.ClientIPAddr then
    { IP := req.ClientIPAddr, Port := ClientPort }
  else if req.IsBroadcast then
    { IP := IPv4bcast, Port := ClientPort }
  else
    -- Response will be broadcast
    { IP := IPv4bcast, Port := ClientPort }

/-- Build DHCP response from API results. -/
def buildResponse (env : Env) (apiResponse : dhcpResponse) (resp : DHCPv4) : DHCPv4 :=
  let resp := if apiResponse.ClientIP ≠ "" then
      { resp with YourIPAddr := ParseIP env.net apiResponse.ClientIP } else resp
  -- Server-ID (54)
  let resp := resp.UpdateOption OptionServerIdentifier (OptionValue.IP env.serverID)
  -- Lease Time (51)
  let resp := resp.UpdateOption OptionIPAddressLeaseTime (OptIPAddressLeaseTime apiResponse.LeaseTime)
  -- Subnet Mask (1)
  let resp := if apiResponse.Prefix ≠ "" then
      resp.UpdateOption OptionSubnetMask (OptionValue.IPMask (CIDRMask (Atoi apiResponse.Prefix) 32))
    else resp
  -- Broadcast (28)
  let resp := if apiResponse.Broadcast ≠ "" then
      resp.UpdateOption OptionBroadcastAddress (OptionValue.IP (ParseIP env.net apiResponse.Broadcast))
    else resp
  -- Default Gateway (3)
  let resp := if apiResponse.GatewayIP ≠ "" then
      resp.UpdateOption OptionRouter (OptionValue.IPs [ParseIP env.net apiResponse.GatewayIP])
    else resp
  -- NTP Servers (42)
  let resp := if apiResponse.NTP ≠ "" then
      resp.UpdateOption OptionNTPServers
        (OptionValue.IPs ((Split apiResponse.NTP).map (ParseIP env.net)))
    else resp
  -- Domain Search (117 in the source comment)
  let resp := if apiResponse.Domain ≠ "" then
      resp.UpdateOption OptionDNSDomainSearchList (OptionValue.Labels (Split apiResponse.Domain))
    else resp
  -- DNS (6)
  let resp := if apiResponse.DNS ≠ "" then
      resp.UpdateOption OptionDomainNameServer
        (OptionValue.IPs ((Split apiResponse.DNS).map (ParseIP env.net)))
    else resp
  resp

/-- The block `if resp != nil { .. }` of `handler`: choose the peer, fill in the
reply and write it. -/
def sendReply (env : Env) (apiResponse : dhcpResponse) (req resp : DHCPv4) : List Event :=
  let peer := replyPeer req resp
  [Event.WriteTo (buildResponse env apiResponse resp) peer]

/-- The query `handler` posts to the API. -/
def apiQuery (req : DHCPv4) : dhcpQuery :=
  { HardwareAddress := HardwareAddr_String req.ClientHWAddr, ClientID := hostName req }

/-- DHCP request handler: the events it causes, in order. -/
def handler (env : Env) (req : DHCPv4) : List Event :=
  if env.Slave && env.checkHeartbeat then
    -- Skip, master is active
    [Event.Heartbeat]
  else
    let probe := if env.Slave then [Event.Heartbeat] else []
    -- Get client details from API
    let apiResponse := env.Post (apiQuery req)
    let done := probe ++ [Event.Post (apiQuery req)]
    if env.Slave && apiResponse.Slave && !env.AllowSlave then done
    else if req.OpCode ≠ OpcodeBootRequest then done
    else
      match NewReplyFromRequest env req with
      | none => done
      | some resp =>
        if req.MessageType = MessageTypeDiscover then
          done ++ sendReply env apiResponse req
            (resp.UpdateOption OptionDHCPMessageType (OptionValue.MessageType MessageTypeOffer))
        else if req.MessageType = MessageTypeRequest then
          done ++ sendReply env apiResponse req
            (resp.UpdateOption OptionDHCPMessageType (OptionValue.MessageType MessageTypeAck))
        else done

/-! ## Runs and sample data -/

/-- The replies a run transmits, with their destinations, in order. -/
def transmissions (tr : List Event) : List (DHCPv4 × UDPAddr) :=
  tr.filterMap (fun e => match e with
    | Event.WriteTo resp peer => some (resp, peer)
    | _ => none)

/-- The queries a run sends to the resolution API, in order. -/
def apiCalls (tr : List Event) : List dhcpQuery :=
  tr.filterMap (fun e => match e with
    | Event.Post q => some q
    | _ => none)

/-- The destination rules as the specification words them, first match wins:
relay agent address specified, reply is a NAK, client address specified,
broadcast flag set, otherwise. -/
def specDestination (giaddr ciaddr : List Nat) (broadcastFlag : Bool) (replyType : Nat) :
    UDPAddr :=
  if IsUnspecified giaddr = false then { IP := giaddr, Port := 67 }
  else if replyType = MessageTypeNak then { IP := IPv4bcast, Port := 68 }
  else if IsUnspecified ciaddr = false then { IP := ciaddr, Port := 68 }
  else if broadcastFlag = true then { IP := IPv4bcast, Port := 68 }
  else { IP := IPv4bcast, Port := 68 }

/-- An active daemon whose API is `dhcpAPI` on the sample store. -/
def sampleEnv : Env where
  Slave := false
  AllowSlave := false
  serverID := [192, 168, 1, 2]
  checkHeartbeat := false
  Post := fun q => (DhcpApi.dhcpAPI DhcpApi.activeEnv DhcpApi.sampleStore q).1
  replyBuilt := true
  net := DhcpApi.plainNet

/-- An active daemon whose API call fails: `apiResponse` keeps its zero value. -/
def deafEnv : Env :=
  { sampleEnv with Post := fun _ => {} }

/-- An active daemon whose API answers every query with a lease that has a
domain list and no lease time. -/
def domainEnv : Env :=
  { sampleEnv with
    Post := fun q =>
      { HardwareAddress := q.HardwareAddress, ClientID := q.ClientID,
        ClientIP := "192.168.1.50", Domain := "example.org,lab.example.org",
        Method := "ByHardwareAddress" } }

/-- A Discover from the MAC address `aa:bb:cc:dd:ee:ff`, no relay, no client
address, broadcast flag clear. -/
def discoverPacket : DHCPv4 where
  OpCode := 1
  Flags := 0
  ClientHWAddr := [0xaa, 0xbb, 0xcc, 0xdd, 0xee, 0xff]
  ClientIPAddr := [0, 0, 0, 0]
  YourIPAddr := [0, 0, 0, 0]
  GatewayIPAddr := [0, 0, 0, 0]
  Options := AList.insert 53 (OptionValue.MessageType 1) ∅

/-- The reply `handler` builds for `discoverPacket` under `sampleEnv`. -/
def sampleOffer : DHCPv4 :=
  buildResponse sampleEnv (sampleEnv.Post (apiQuery discoverPacket))
    { OpCode := 2, Flags := 0, ClientHWAddr := [0xaa, 0xbb, 0xcc, 0xdd, 0xee, 0xff],
      ClientIPAddr := IPv4zero, YourIPAddr := IPv4zero,
      GatewayIPAddr := [0, 0, 0, 0],
      Options := AList.insert 53 (OptionValue.MessageType 2) ∅ }

end DhcpDaemon

namespace DhcpApi

/-! ## Keys, store writes and iteration order -/

theorem mac_ne_pool (a : String) : "mac:" ++ a ≠ "pool" := by
  intro h
  have h2 := congrArg String.data h
  simp [String.data_append] at h2

theorem client_ne_mac (a b : String) : "client:" ++ a ≠ "mac:" ++ b := by
  intro h
  have h2 := congrArg String.data h
  simp [String.data_append] at h2

theorem HSet_same (s : Store) (key f v : String) : HSet s key f v key = (s key).insert f v := by
  simp [HSet]

theorem HSet_other (s : Store) (key f v key2 : String) (h : key2 ≠ key) :
    HSet s key f v key2 = s key2 := by
  simp [HSet, Function.update_noteq h]

theorem visit_nodupKeys (o : RangeOrder) (m : Hash) : (o.visit m).NodupKeys :=
  (List.perm_nodupKeys (o.perm m)).2 m.nodupKeys

theorem visit_dlookup (o : RangeOrder) (m : Hash) (k : String) :
    (o.visit m).dlookup k = m.lookup k :=
  List.perm_dlookup k (visit_nodupKeys o m) m.nodupKeys (o.perm m)

theorem groupField_Method (env : Env) (g : Hash) (r : dhcpResponse) (e : Entry) :
    (groupField env g r e).Method = r.Method := by
  unfold groupField
  simp only
  split_ifs <;> try rfl
  split <;> rfl

theorem groupField_ClientIP (env : Env) (g : Hash) (r : dhcpResponse) (e : Entry) :
    (groupField env g r e).ClientIP = r.ClientIP := by
  unfold groupField
  simp only
  split_ifs <;> try rfl
  split <;> rfl

theorem foldl_groupField_Method (env : Env) (g : Hash) (l : List Entry) (r : dhcpResponse) :
    (l.foldl (groupField env g) r).Method = r.Method := by
  induction l generalizing r with
  | nil => rfl
  | cons e t ih => rw [List.foldl_cons, ih, groupField_Method]

theorem foldl_groupField_ClientIP (env : Env) (g : Hash) (l : List Entry) (r : dhcpResponse) :
    (l.foldl (groupField env g) r).ClientIP = r.ClientIP := by
  induction l generalizing r with
  | nil => rfl
  | cons e t ih => rw [List.foldl_cons, ih, groupField_ClientIP]

theorem clientField_Method (r : dhcpResponse) (e : Entry) :
    (clientField r e).Method = r.Method := by
  unfold clientField
  simp only
  split_ifs <;> rfl

theorem foldl_clientField_Method (l : List Entry) (r : dhcpResponse) :
    (l.foldl clientField r).Method = r.Method := by
  induction l generalizing r with
  | nil => rfl
  | cons e t ih => rw [List.foldl_cons, ih, clientField_Method]

theorem foldl_clientField_ClientIP (l : List Entry) (hl : l.NodupKeys) (r : dhcpResponse) :
    (l.foldl clientField r).ClientIP = (l.dlookup "ip").getD r.ClientIP := by
  induction l generalizing r with
  | nil => rfl
  | cons e t ih =>
    obtain ⟨k, v⟩ := e
    rw [List.nodupKeys_cons] at hl
    rw [List.foldl_cons, ih hl.2]
    by_cases hk : k = "ip"
    · subst hk
      have hnone : List.dlookup "ip" t = none := List.dlookup_eq_none.2 hl.1
      rw [hnone, List.dlookup_cons_eq]
      simp [clientField]
    · have hne : "ip" ≠ (⟨k, v⟩ : Entry).1 := fun h => hk h.symm
      rw [List.dlookup_cons_ne t _ hne]
      have hstep : (clientField r ⟨k, v⟩).ClientIP = r.ClientIP := by
        unfold clientField
        simp only [if_neg hk]
        split_ifs <;> rfl
      rw [hstep]

theorem copyClient_ClientIP (env : Env) (d : Hash) (r : dhcpResponse) :
    (copyClient env d r).ClientIP = (d.lookup "ip").getD r.ClientIP := by
  unfold copyClient
  rw [foldl_clientField_ClientIP _ (visit_nodupKeys _ _), visit_dlookup]

theorem dhcpAPI_Method (env : Env) (s : Store) (q : dhcpQuery) :
    (dhcpAPI env s q).1.Method = (lookupBinding env s q).r.Method := by
  simp only [dhcpAPI, copyClient, copyGroup, foldl_clientField_Method, foldl_groupField_Method]

theorem dhcpAPI_ClientIP (env : Env) (s : Store) (q : dhcpQuery) :
    (dhcpAPI env s q).1.ClientIP =
      ((lookupBinding env s q).d.lookup "ip").getD (lookupBinding env s q).r.ClientIP := by
  simp only [dhcpAPI, copyClient_ClientIP]
  simp only [copyGroup, foldl_groupField_ClientIP]

theorem len_pos_iff (m : Hash) : m.len > 0 ↔ m.entries ≠ [] := by
  unfold Hash.len
  exact List.length_pos

theorem lookupBinding_client (env : Env) (s : Store) (q : dhcpQuery)
    (hid : q.ClientID ≠ "") (hread : env.readOk ("client:" ++ q.ClientID) = true)
    (hne : (s ("client:" ++ q.ClientID)).entries ≠ []) :
    lookupBinding env s q =
      { r := { HardwareAddress := q.HardwareAddress, ClientID := q.ClientID,
               Method := "ByClientID" },
        d := s ("client:" ++ q.ClientID), g := env.defaultGroup,
        s := HSet s ("client:" ++ q.ClientID) "ts" (toString env.now) } := by
  have hlen : (s ("client:" ++ q.ClientID)).len > 0 := (len_pos_iff _).2 hne
  simp [lookupBinding, HGetAll, Result, hread, hid, hlen]

theorem insert_entries_ne_nil (m : Hash) (f v : String) : (m.insert f v).entries ≠ [] := by
  rw [AList.insert_entries]
  exact List.cons_ne_nil _ _

theorem lookupBinding_mac (env : Env) (s : Store) (q : dhcpQuery)
    (hmac : q.HardwareAddress ≠ "") (hread : env.readOk ("mac:" ++ q.HardwareAddress) = true)
    (hne : (s ("mac:" ++ q.HardwareAddress)).entries ≠ [])
    (hcl : q.ClientID = "" ∨ (s ("client:" ++ q.ClientID)).entries = []) :
    lookupBinding env s q =
      { r := { HardwareAddress := q.HardwareAddress, ClientID := q.ClientID,
               Method := "ByHardwareAddress" },
        d := s ("mac:" ++ q.HardwareAddress), g := env.defaultGroup,
        s := HSet s ("mac:" ++ q.HardwareAddress) "ts" (toString env.now) } := by
  have hlen : (s ("mac:" ++ q.HardwareAddress)).len > 0 := (len_pos_iff _).2 hne
  have hfirst : ¬((Result (HGetAll env s ("client:" ++ q.ClientID))).2 = false ∧ q.ClientID ≠ "" ∧
      (Result (HGetAll env s ("client:" ++ q.ClientID))).1.len > 0) := by
    rintro ⟨_, h2, h3⟩
    rcases hcl with h | h
    · exact h2 h
    · unfold HGetAll Result at h3
      by_cases hr : env.readOk ("client:" ++ q.ClientID) = true
      · simp [hr, Hash.len, h] at h3
      · simp [hr, Hash.len] at h3
  unfold lookupBinding
  simp only [if_neg hfirst]
  simp [HGetAll, Result, hread, hmac, hlen]

theorem rangePool_cases (now : Int) (s : Store) (mac clientID : String) (l : List Entry) :
    (rangePool now s mac clientID l = ("", s) ∧ ∀ e ∈ l, e.2 ≠ "") ∨
    (∃ k : String, (⟨k, ""⟩ : Entry) ∈ l ∧
      rangePool now s mac clientID l =
        (k, HSet (HSet (HSet (HSet (HSet s "pool" k mac) ("mac:" ++ mac) "ip" k)
              ("mac:" ++ mac) "description" ("dynamic:" ++ clientID))
              ("mac:" ++ mac) "dynamic" "1") ("mac:" ++ mac) "ts" (toString now))) := by
  induction l with
  | nil => exact Or.inl ⟨rfl, fun e he => by cases he⟩
  | cons e t ih =>
    obtain ⟨k, v⟩ := e
    by_cases hv : v = ""
    · subst hv
      right
      exact ⟨k, List.mem_cons_self _ _, by simp [rangePool]⟩
    · have hstep : rangePool now s mac clientID (⟨k, v⟩ :: t) = rangePool now s mac clientID t := by
        simp [rangePool, hv]
      rw [hstep]
      rcases ih with ⟨h1, h2⟩ | ⟨k2, h1, h2⟩
      · left
        refine ⟨h1, ?_⟩
        intro e he
        rcases List.mem_cons.1 he with h | h
        · subst h; exact hv
        · exact h2 e h
      · right
        exact ⟨k2, List.mem_cons_of_mem _ h1, h2⟩

theorem mem_visit_iff (o : RangeOrder) (m : Hash) (k v : String) :
    (⟨k, v⟩ : Entry) ∈ o.visit m ↔ m.lookup k = some v := by
  rw [(o.perm m).mem_iff, ← AList.mem_lookup_iff]
  rfl

theorem getDynamicIP_cases (env : Env) (s : Store) (mac clientID : String) :
    (getDynamicIP env s mac clientID = ("", s) ∧
      ((env.slave = true ∧ env.allowSlave = false) ∨ env.readOk "pool" = false ∨
        ∀ f v : String, (s "pool").lookup f = some v → v ≠ "")) ∨
    (¬(env.slave = true ∧ env.allowSlave = false) ∧ env.readOk "pool" = true ∧
      ∃ k : String, (s "pool").lookup k = some "" ∧
        getDynamicIP env s mac clientID =
          (k, HSet (HSet (HSet (HSet (HSet s "pool" k mac) ("mac:" ++ mac) "ip" k)
                ("mac:" ++ mac) "description" ("dynamic:" ++ clientID))
                ("mac:" ++ mac) "dynamic" "1") ("mac:" ++ mac) "ts" (toString env.now))) := by
  by_cases hg : env.slave = true ∧ env.allowSlave = false
  · left
    exact ⟨by simp [getDynamicIP, hg.1, hg.2], Or.inl hg⟩
  · have hgate : (env.slave && !env.allowSlave) = false := by
      cases h1 : env.slave <;> cases h2 : env.allowSlave <;> simp_all
    by_cases hr : env.readOk "pool" = true
    · have hdef : getDynamicIP env s mac clientID =
          rangePool env.now s mac clientID (env.order.visit (s "pool")) := by
        simp [getDynamicIP, hgate, HGetAll, Result, hr]
      rcases rangePool_cases env.now s mac clientID (env.order.visit (s "pool")) with
        ⟨h1, h2⟩ | ⟨k, h1, h2⟩
      · left
        refine ⟨hdef.trans h1, Or.inr (Or.inr ?_)⟩
        intro f v hfv
        exact h2 ⟨f, v⟩ ((mem_visit_iff _ _ _ _).2 hfv)
      · right
        exact ⟨hg, hr, k, (mem_visit_iff _ _ _ _).1 h1, hdef.trans h2⟩
    · left
      have hr2 : env.readOk "pool" = false := by simpa using hr
      exact ⟨by simp [getDynamicIP, hgate, HGetAll, Result, hr2], Or.inr (Or.inl hr2)⟩

/-! ## Claims about the resolution API -/

/-- Claim C1: when the client ID of the query is not empty, the read of
`client:<clientID>` is answered and the hash there is not empty, `dhcpAPI`
answers with method `ByClientID`, whatever the MAC address and the bindings
under `mac:` are, and the `ip` of the answer is the `ip` field of that hash. -/
theorem clientID_binding_takes_precedence (env : Env) (s : Store) (q : dhcpQuery)
    (hid : q.ClientID ≠ "") (hread : env.readOk ("client:" ++ q.ClientID) = true)
    (hne : (s ("client:" ++ q.ClientID)).entries ≠ []) :
    (dhcpAPI env s q).1.Method = "ByClientID" ∧
      (dhcpAPI env s q).1.ClientIP = (s ("client:" ++ q.ClientID)).index "ip" := by
  rw [dhcpAPI_Method, dhcpAPI_ClientIP, lookupBinding_client env s q hid hread hne]
  exact ⟨rfl, rfl⟩

/-- Claim C1 at the sample store: the query names a client ID and a MAC address
that both have a binding; the answer is the one of the client ID. -/
theorem clientID_binding_takes_precedence_witness :
    knownClient.ClientID ≠ "" ∧
    activeEnv.readOk ("client:" ++ knownClient.ClientID) = true ∧
    (sampleStore ("client:" ++ knownClient.ClientID)).entries ≠ [] ∧
    (sampleStore ("mac:" ++ knownClient.HardwareAddress)).entries ≠ [] ∧
    (dhcpAPI activeEnv sampleStore knownClient).1.Method = "ByClientID" ∧
    (dhcpAPI activeEnv sampleStore knownClient).1.ClientIP = "192.168.1.60" :=
  ⟨by decide, rfl, by decide, by decide,
    clientID_binding_takes_precedence activeEnv sampleStore knownClient (by decide) rfl
      (by decide)⟩

/-- Claim C2 as amended: when the MAC address of the query is not empty, the
read of `mac:<mac>` is answered and the hash there is not empty, and no client
binding matches (the client ID is empty or `client:<clientID>` holds nothing),
`dhcpAPI` answers with method `ByHardwareAddress` and the `ip` field of the
binding, no field of the store other than `ts` of `mac:<mac>` changes, and a
second call with the same query on the resulting store, its read of
`mac:<mac>` answered too (everything else of its environment arbitrary), has
the same method and returns the same ip. -/
theorem mac_binding_is_sticky (env env2 : Env) (s : Store) (q : dhcpQuery)
    (hmac : q.HardwareAddress ≠ "")
    (hread : env.readOk ("mac:" ++ q.HardwareAddress) = true)
    (hread2 : env2.readOk ("mac:" ++ q.HardwareAddress) = true)
    (hne : (s ("mac:" ++ q.HardwareAddress)).entries ≠ [])
    (hcl : q.ClientID = "" ∨ (s ("client:" ++ q.ClientID)).entries = []) :
    (dhcpAPI env s q).1.Method = "ByHardwareAddress" ∧
    (dhcpAPI env s q).1.ClientIP = (s ("mac:" ++ q.HardwareAddress)).index "ip" ∧
    (∀ key field : String, ¬(key = "mac:" ++ q.HardwareAddress ∧ field = "ts") →
      ((dhcpAPI env s q).2 key).lookup field = (s key).lookup field) ∧
    (dhcpAPI env2 (dhcpAPI env s q).2 q).1.Method = "ByHardwareAddress" ∧
    (dhcpAPI env2 (dhcpAPI env s q).2 q).1.ClientIP = (dhcpAPI env s q).1.ClientIP := by
  have hL := lookupBinding_mac env s q hmac hread hne hcl
  have hs : (dhcpAPI env s q).2 = HSet s ("mac:" ++ q.HardwareAddress) "ts" (toString env.now) := by
    simp only [dhcpAPI, hL]
  have hne2 : ((dhcpAPI env s q).2 ("mac:" ++ q.HardwareAddress)).entries ≠ [] := by
    rw [hs, HSet_same]
    exact insert_entries_ne_nil _ _ _
  have hcl2 : q.ClientID = "" ∨ ((dhcpAPI env s q).2 ("client:" ++ q.ClientID)).entries = [] := by
    rcases hcl with h | h
    · exact Or.inl h
    · right
      rw [hs, HSet_other _ _ _ _ _ (client_ne_mac _ _)]
      exact h
  have hL2 := lookupBinding_mac env2 (dhcpAPI env s q).2 q hmac hread2 hne2 hcl2
  have hip : (dhcpAPI env s q).1.ClientIP = (s ("mac:" ++ q.HardwareAddress)).index "ip" := by
    rw [dhcpAPI_ClientIP, hL]
    rfl
  refine ⟨?_, hip, ?_, ?_, ?_⟩
  · rw [dhcpAPI_Method, hL]
  · intro key field hkf
    rw [hs]
    by_cases hk : key = "mac:" ++ q.HardwareAddress
    · subst hk
      have hf : field ≠ "ts" := fun h => hkf ⟨rfl, h⟩
      rw [HSet_same, AList.lookup_insert_ne hf]
    · rw [HSet_other _ _ _ _ _ hk]
  · rw [dhcpAPI_Method, hL2]
  · rw [hip, dhcpAPI_ClientIP, hL2]
    show (AList.lookup "ip" ((dhcpAPI env s q).2 ("mac:" ++ q.HardwareAddress))).getD "" = _
    rw [hs, HSet_same, AList.lookup_insert_ne (by decide)]
    rfl

/-- Claim C2 as amended, at the sample store, the second call visiting maps in the opposite
order. -/
theorem mac_binding_is_sticky_witness :
    knownMac.HardwareAddress ≠ "" ∧
    (sampleStore ("mac:" ++ knownMac.HardwareAddress)).entries ≠ [] ∧
    knownMac.ClientID = "" ∧
    (dhcpAPI activeEnv sampleStore knownMac).1.Method = "ByHardwareAddress" ∧
    (dhcpAPI activeEnv sampleStore knownMac).1.ClientIP = "192.168.1.50" ∧
    (dhcpAPI reversedEnv (dhcpAPI activeEnv sampleStore knownMac).2 knownMac).1.ClientIP
      = (dhcpAPI activeEnv sampleStore knownMac).1.ClientIP :=
  have h := mac_binding_is_sticky activeEnv reversedEnv sampleStore knownMac (by decide) rfl rfl
    (by decide) (Or.inl rfl)
  ⟨by decide, by decide, rfl, h.1, h.2.1, h.2.2.2.2⟩

/-- Claim C2 as stated fails when a read of `mac:<mac>` is not answered.  With
the conditions of the claim (MAC address not empty, hash at `mac:<mac>` not
empty, client ID empty): if the read fails the answer has method `Dynamic` and
the `ip` field of the binding is overwritten, from 192.168.1.50 to 10.9.0.50;
and if the read fails in the second call only, the first call returns
192.168.1.50 and the second 10.9.0.50. -/
theorem mac_read_failure_counterexample :
    knownMac.HardwareAddress ≠ "" ∧
    (sampleStore ("mac:" ++ knownMac.HardwareAddress)).entries ≠ [] ∧
    knownMac.ClientID = "" ∧
    macReadFailsEnv.readOk ("mac:" ++ knownMac.HardwareAddress) = false ∧
    (dhcpAPI macReadFailsEnv sampleStore knownMac).1.Method = "Dynamic" ∧
    (sampleStore ("mac:" ++ knownMac.HardwareAddress)).lookup "ip" = some "192.168.1.50" ∧
    ((dhcpAPI macReadFailsEnv sampleStore knownMac).2
      ("mac:" ++ knownMac.HardwareAddress)).lookup "ip" = some "10.9.0.50" ∧
    (dhcpAPI activeEnv sampleStore knownMac).1.ClientIP = "192.168.1.50" ∧
    (dhcpAPI macReadFailsEnv (dhcpAPI activeEnv sampleStore knownMac).2 knownMac).1.ClientIP
      = "10.9.0.50" := by
  decide

/-- Claim C3, evaluated on the code: for the group `gateway=192.168.1.1`,
`prefix=24` the answer has netmask `255.255.255.0`, as the claim says, but its
broadcast field is `192.168.1.0`, the gateway address with the host bits
cleared, where the claim says `192.168.1.255`; this in both visiting orders of
the group. -/
theorem broadcast_is_network_address :
    (sampleStore "group:default").lookup "gateway" = some "192.168.1.1" ∧
    (sampleStore "group:default").lookup "prefix" = some "24" ∧
    (dhcpAPI activeEnv sampleStore knownMac).1.GatewayIP = "192.168.1.1" ∧
    (dhcpAPI activeEnv sampleStore knownMac).1.Netmask = "255.255.255.0" ∧
    (dhcpAPI activeEnv sampleStore knownMac).1.Broadcast = "192.168.1.0" ∧
    (dhcpAPI reversedEnv sampleStore knownMac).1.Netmask = "255.255.255.0" ∧
    (dhcpAPI reversedEnv sampleStore knownMac).1.Broadcast = "192.168.1.0" := by
  decide

/-- Claim C4, evaluated on the code: a query without a binding is answered with
method `Dynamic` and an address of the pool, but the group fields of the answer
are those of `group:default`, not those of `group:pool` (nor of the snapshot
`defaultPoolGroup` that the dynamic branch assigns to `g`). -/
theorem dynamic_answer_uses_default_group :
    (dhcpAPI activeEnv sampleStore newMac).1.Method = "Dynamic" ∧
    (dhcpAPI activeEnv sampleStore newMac).1.ClientIP = "10.9.0.50" ∧
    (sampleStore "group:pool").lookup "gateway" = some "10.9.0.1" ∧
    (sampleStore "group:pool").lookup "prefix" = some "16" ∧
    activeEnv.defaultPoolGroup = sampleStore "group:pool" ∧
    (dhcpAPI activeEnv sampleStore newMac).1.GatewayIP = "192.168.1.1" ∧
    (dhcpAPI activeEnv sampleStore newMac).1.Prefix = "24" ∧
    (dhcpAPI activeEnv sampleStore newMac).1.Netmask = "255.255.255.0" := by
  refine ⟨by decide, by decide, by decide, by decide, rfl, by decide, by decide, by decide⟩

/-! ## Claims about the allocator -/

/-- A call of `getDynamicIP` that returns a non-empty string, in terms of the
returned pair. -/
theorem getDynamicIP_success (env : Env) (s : Store) (mac clientID : String)
    (hk : (getDynamicIP env s mac clientID).1 ≠ "") :
    (s "pool").lookup (getDynamicIP env s mac clientID).1 = some "" ∧
    ((getDynamicIP env s mac clientID).2 "pool").lookup (getDynamicIP env s mac clientID).1
      = some mac ∧
    ((getDynamicIP env s mac clientID).2 ("mac:" ++ mac)).lookup "ip"
      = some (getDynamicIP env s mac clientID).1 ∧
    ((getDynamicIP env s mac clientID).2 ("mac:" ++ mac)).lookup "description"
      = some ("dynamic:" ++ clientID) ∧
    ((getDynamicIP env s mac clientID).2 ("mac:" ++ mac)).lookup "dynamic" = some "1" ∧
    ((getDynamicIP env s mac clientID).2 ("mac:" ++ mac)).lookup "ts" = some (toString env.now) ∧
    (∀ f : String, f ≠ (getDynamicIP env s mac clientID).1 →
      ((getDynamicIP env s mac clientID).2 "pool").lookup f = (s "pool").lookup f) ∧
    (∀ key : String, key ≠ "pool" → key ≠ "mac:" ++ mac →
      (getDynamicIP env s mac clientID).2 key = s key) := by
  rcases getDynamicIP_cases env s mac clientID with ⟨h1, _⟩ | ⟨_, _, k, hfree, hres⟩
  · rw [h1] at hk
    exact absurd rfl hk
  · rw [hres]
    have hpm : "pool" ≠ "mac:" ++ mac := fun h => mac_ne_pool mac h.symm
    refine ⟨hfree, ?_, ?_, ?_, ?_, ?_, ?_, ?_⟩
    · simp only [HSet_other _ _ _ _ _ hpm, HSet_same, AList.lookup_insert]
    · simp only [HSet_same, AList.lookup_insert, AList.lookup_insert_ne (show "ip" ≠ "ts" by decide),
        AList.lookup_insert_ne (show "ip" ≠ "dynamic" by decide),
        AList.lookup_insert_ne (show "ip" ≠ "description" by decide)]
    · simp only [HSet_same, AList.lookup_insert,
        AList.lookup_insert_ne (show "description" ≠ "ts" by decide),
        AList.lookup_insert_ne (show "description" ≠ "dynamic" by decide)]
    · simp only [HSet_same, AList.lookup_insert,
        AList.lookup_insert_ne (show "dynamic" ≠ "ts" by decide)]
    · simp only [HSet_same, AList.lookup_insert]
    · intro f hf
      simp only [HSet_other _ _ _ _ _ hpm, HSet_same, AList.lookup_insert_ne hf]
    · intro key h1 h2
      simp only [HSet_other _ _ _ _ _ h2, HSet_other _ _ _ _ _ h1]

/-- Claim C5: if `getDynamicIP` returns a non-empty IP `k` and the store `t`,
then before the call `k` was a key of the `pool` hash with an empty owner; in
`t` the owner of `k` is `mac` and the hash `mac:<mac>` has `ip = k`,
`description = "dynamic:" + clientID`, `dynamic = 1` and `ts` the time of the
call; every other entry of the pool and every key of the store other than
`pool` and `mac:<mac>` are as before. -/
theorem getDynamicIP_claims_free_entry (env : Env) (s t : Store) (mac clientID k : String)
    (hcall : getDynamicIP env s mac clientID = (k, t)) (hk : k ≠ "") :
    (s "pool").lookup k = some "" ∧
    (t "pool").lookup k = some mac ∧
    (t ("mac:" ++ mac)).lookup "ip" = some k ∧
    (t ("mac:" ++ mac)).lookup "description" = some ("dynamic:" ++ clientID) ∧
    (t ("mac:" ++ mac)).lookup "dynamic" = some "1" ∧
    (t ("mac:" ++ mac)).lookup "ts" = some (toString env.now) ∧
    (∀ f : String, f ≠ k → (t "pool").lookup f = (s "pool").lookup f) ∧
    (∀ key : String, key ≠ "pool" → key ≠ "mac:" ++ mac → t key = s key) := by
  have h1 : (getDynamicIP env s mac clientID).1 = k := by rw [hcall]
  have h2 : (getDynamicIP env s mac clientID).2 = t := by rw [hcall]
  have h := getDynamicIP_success env s mac clientID (by rw [h1]; exact hk)
  rw [h1, h2] at h
  exact h

/-- Claim C5 at the sample store: the free address `10.9.0.50` goes to the
asking MAC address. -/
theorem getDynamicIP_claims_free_entry_witness :
    (getDynamicIP activeEnv sampleStore "02:00:00:00:00:01" "laptop").1 = "10.9.0.50" ∧
    (sampleStore "pool").lookup "10.9.0.50" = some "" ∧
    ((getDynamicIP activeEnv sampleStore "02:00:00:00:00:01" "laptop").2 "pool").lookup
      "10.9.0.50" = some "02:00:00:00:00:01" ∧
    ((getDynamicIP activeEnv sampleStore "02:00:00:00:00:01" "laptop").2
      ("mac:" ++ "02:00:00:00:00:01")).lookup "ip" = some "10.9.0.50" :=
  have h := getDynamicIP_claims_free_entry activeEnv sampleStore
    (getDynamicIP activeEnv sampleStore "02:00:00:00:00:01" "laptop").2
    "02:00:00:00:00:01" "laptop" "10.9.0.50" rfl (by decide)
  ⟨by decide, h.1, h.2.1, h.2.2.1⟩

/-- Claim C6, evaluated on the code: a call with the empty MAC address returns
the free address `10.9.0.50` and writes the empty string as its owner, so the
entry is still free and the number of free entries has not dropped; the next
call of the run, for another MAC address, returns the same address. -/
theorem empty_mac_leaves_entry_free :
    (getDynamicIP activeEnv sampleStore "" "laptop").1 = "10.9.0.50" ∧
    ((getDynamicIP activeEnv sampleStore "" "laptop").2 "pool").lookup "10.9.0.50" = some "" ∧
    freeEntries sampleStore = 1 ∧
    freeEntries (getDynamicIP activeEnv sampleStore "" "laptop").2 = 1 ∧
    (getDynamicIP activeEnv (getDynamicIP activeEnv sampleStore "" "laptop").2
      "02:00:00:00:00:01" "phone").1 = "10.9.0.50" := by
  decide

/-- Claim C7 as amended: when the pool holds no free entry under the empty key,
`getDynamicIP` returns the empty string if and only if the instance is standby
without the override flag, or the read of `pool` fails, or no entry of the pool
has an empty owner; and whenever it returns the empty string the store is
unchanged. -/
theorem getDynamicIP_empty_iff (env : Env) (s : Store) (mac clientID : String)
    (h0 : (s "pool").lookup "" ≠ some "") :
    ((getDynamicIP env s mac clientID).1 = "" ↔
      ((env.slave = true ∧ env.allowSlave = false) ∨ env.readOk "pool" = false ∨
        ∀ f v : String, (s "pool").lookup f = some v → v ≠ "")) ∧
    ((getDynamicIP env s mac clientID).1 = "" → (getDynamicIP env s mac clientID).2 = s) := by
  rcases getDynamicIP_cases env s mac clientID with ⟨h1, h2⟩ | ⟨hg, hr, k, hfree, hres⟩
  · rw [h1]
    exact ⟨⟨fun _ => h2, fun _ => rfl⟩, fun _ => rfl⟩
  · have hk : k ≠ "" := by
      intro h
      rw [h] at hfree
      exact h0 hfree
    rw [hres]
    refine ⟨⟨fun h => absurd h hk, ?_⟩, fun h => absurd h hk⟩
    rintro (h | h | h)
    · exact absurd h hg
    · rw [hr] at h
      cases h
    · exact absurd rfl (h k "" hfree)

/-- Claim C7 as amended, at the sample store for a standby instance without the
override: the pool has a free address, the result is empty, the store is
unchanged. -/
theorem getDynamicIP_empty_iff_witness :
    (sampleStore "pool").lookup "" ≠ some "" ∧
    (sampleStore "pool").lookup "10.9.0.50" = some "" ∧
    (getDynamicIP standbyEnv sampleStore "02:00:00:00:00:01" "laptop").1 = "" ∧
    (getDynamicIP standbyEnv sampleStore "02:00:00:00:00:01" "laptop").2 = sampleStore :=
  have h := getDynamicIP_empty_iff standbyEnv sampleStore "02:00:00:00:00:01" "laptop"
    (by decide)
  ⟨by decide, by decide, h.1.2 (Or.inl ⟨rfl, rfl⟩), h.2 (h.1.2 (Or.inl ⟨rfl, rfl⟩))⟩

/-- Claim C7 as stated fails on a pool with a free entry under the empty key: an
active instance whose read of `pool` is answered returns the empty string
although an entry has an empty owner, and the store has changed (the entry is
owned and a binding is written). -/
theorem getDynamicIP_blank_key_counterexample :
    (getDynamicIP activeEnv blankKeyStore "02:00:00:00:00:01" "laptop").1 = "" ∧
    ¬(activeEnv.slave = true ∧ activeEnv.allowSlave = false) ∧
    activeEnv.readOk "pool" = true ∧
    (blankKeyStore "pool").lookup "" = some "" ∧
    ((getDynamicIP activeEnv blankKeyStore "02:00:00:00:00:01" "laptop").2 "pool").lookup ""
      = some "02:00:00:00:00:01" ∧
    ((getDynamicIP activeEnv blankKeyStore "02:00:00:00:00:01" "laptop").2
      "mac:02:00:00:00:00:01").lookup "ip" = some "" ∧
    (getDynamicIP activeEnv blankKeyStore "02:00:00:00:00:01" "laptop").2 ≠ blankKeyStore := by
  refine ⟨by decide, by decide, rfl, by decide, by decide, by decide, ?_⟩
  intro h
  have h2 := congrArg (fun t : Store => (t "pool").lookup "") h
  revert h2
  decide

end DhcpApi

namespace DhcpDaemon

open DhcpApi (dhcpQuery dhcpResponse NetLib ParseIP CIDRMask Atoi v4InV6Prefix)

/-! ## Options of the reply and runs of handler -/

theorem lookup_UpdateOption (d : DHCPv4) (code : Nat) (v : OptionValue) (c : Nat) :
    (d.UpdateOption code v).Options.lookup c = if c = code then some v else d.Options.lookup c := by
  unfold DHCPv4.UpdateOption
  by_cases h : c = code
  · subst h
    simp [AList.lookup_insert]
  · simp [h, AList.lookup_insert_ne h]

theorem lookup_ite_UpdateOption (p : Prop) [Decidable p] (d : DHCPv4) (code : Nat)
    (v : OptionValue) (c : Nat) :
    (if p then d.UpdateOption code v else d).Options.lookup c =
      if p ∧ c = code then some v else d.Options.lookup c := by
  by_cases hp : p
  · simp [hp, lookup_UpdateOption]
  · simp [hp]

theorem YourIPAddr_UpdateOption (d : DHCPv4) (code : Nat) (v : OptionValue) :
    (d.UpdateOption code v).YourIPAddr = d.YourIPAddr := rfl

theorem YourIPAddr_ite_UpdateOption (p : Prop) [Decidable p] (d : DHCPv4) (code : Nat)
    (v : OptionValue) :
    (if p then d.UpdateOption code v else d).YourIPAddr = d.YourIPAddr := by
  by_cases hp : p <;> simp [hp, YourIPAddr_UpdateOption]

/-- The option map of the reply `buildResponse` returns, code by code. -/
theorem buildResponse_lookup (env : Env) (a : dhcpResponse) (resp : DHCPv4) (c : Nat) :
    (buildResponse env a resp).Options.lookup c =
      if a.DNS ≠ "" ∧ c = 6 then
        some (OptionValue.IPs ((Split a.DNS).map (ParseIP env.net)))
      else if a.Domain ≠ "" ∧ c = 119 then some (OptionValue.Labels (Split a.Domain))
      else if a.NTP ≠ "" ∧ c = 42 then
        some (OptionValue.IPs ((Split a.NTP).map (ParseIP env.net)))
      else if a.GatewayIP ≠ "" ∧ c = 3 then some (OptionValue.IPs [ParseIP env.net a.GatewayIP])
      else if a.Broadcast ≠ "" ∧ c = 28 then some (OptionValue.IP (ParseIP env.net a.Broadcast))
      else if a.Prefix ≠ "" ∧ c = 1 then some (OptionValue.IPMask (CIDRMask (Atoi a.Prefix) 32))
      else if c = 51 then some (OptIPAddressLeaseTime a.LeaseTime)
      else if c = 54 then some (OptionValue.IP env.serverID)
      else resp.Options.lookup c := by
  simp only [buildResponse, lookup_ite_UpdateOption, lookup_UpdateOption,
    OptionDomainNameServer, OptionDNSDomainSearchList, OptionNTPServers, OptionRouter,
    OptionBroadcastAddress, OptionSubnetMask, OptionIPAddressLeaseTime, OptionServerIdentifier]
  by_cases h : a.ClientIP ≠ ""
  · rw [if_pos h]
  · rw [if_neg h]

theorem buildResponse_YourIPAddr (env : Env) (a : dhcpResponse) (resp : DHCPv4) :
    (buildResponse env a resp).YourIPAddr =
      if a.ClientIP ≠ "" then ParseIP env.net a.ClientIP else resp.YourIPAddr := by
  simp only [buildResponse, YourIPAddr_ite_UpdateOption, YourIPAddr_UpdateOption]
  by_cases h : a.ClientIP ≠ ""
  · rw [if_pos h, if_pos h]
  · rw [if_neg h, if_neg h]

theorem buildResponse_MessageType (env : Env) (a : dhcpResponse) (resp : DHCPv4) :
    (buildResponse env a resp).MessageType = resp.MessageType := by
  unfold DHCPv4.MessageType
  rw [buildResponse_lookup]
  simp [OptionDHCPMessageType]

theorem MessageType_UpdateOption (d : DHCPv4) (t : Nat) :
    (d.UpdateOption OptionDHCPMessageType (OptionValue.MessageType t)).MessageType = t := by
  unfold DHCPv4.MessageType
  rw [lookup_UpdateOption]
  simp

theorem lookup_WithOptionCopied (request d : DHCPv4) (code c : Nat) (h : c ≠ code) :
    (WithOptionCopied request code d).Options.lookup c = d.Options.lookup c := by
  unfold WithOptionCopied
  split
  · rw [lookup_UpdateOption, if_neg h]
  · rfl

theorem YourIPAddr_WithOptionCopied (request d : DHCPv4) (code : Nat) :
    (WithOptionCopied request code d).YourIPAddr = d.YourIPAddr := by
  unfold WithOptionCopied
  split <;> rfl

/-- The fresh reply of the library has the zero address as `YourIPAddr` and no
option other than the two copied from the request. -/
theorem NewReplyFromRequest_some (env : Env) (req base : DHCPv4)
    (h : NewReplyFromRequest env req = some base) :
    base.YourIPAddr = IPv4zero ∧
    ∀ c : Nat, c ≠ OptionClientIdentifier → c ≠ OptionRelayAgentInformation →
      base.Options.lookup c = none := by
  unfold NewReplyFromRequest at h
  by_cases hb : env.replyBuilt = true
  · rw [if_pos hb] at h
    have h2 := Option.some.inj h
    subst h2
    refine ⟨?_, ?_⟩
    · simp only [YourIPAddr_WithOptionCopied]
    · intro c h61 h82
      simp only [lookup_WithOptionCopied _ _ _ _ h61, lookup_WithOptionCopied _ _ _ _ h82]
      exact AList.lookup_empty c
  · rw [if_neg hb] at h
    cases h

theorem transmissions_append (a b : List Event) :
    transmissions (a ++ b) = transmissions a ++ transmissions b := by
  simp [transmissions, List.filterMap_append]

theorem transmissions_done (env : Env) (q : dhcpQuery) :
    transmissions ((if env.Slave = true then [Event.Heartbeat] else []) ++ [Event.Post q]) = [] := by
  by_cases h : env.Slave = true <;> simp [transmissions, h]

theorem transmissions_sendReply (env : Env) (a : dhcpResponse) (req resp : DHCPv4) :
    transmissions (sendReply env a req resp) = [(buildResponse env a resp, replyPeer req resp)] := by
  simp [transmissions, sendReply]

/-- Every run of `handler` transmits nothing, or exactly the reply built from
the fresh reply of the library with the type set to Offer (for a Discover) or Ack
(for a Request). -/
theorem transmissions_handler (env : Env) (req : DHCPv4) :
    transmissions (handler env req) = [] ∨
    ((env.Slave && env.checkHeartbeat) = false ∧ req.OpCode = OpcodeBootRequest ∧
      ∃ (base : DHCPv4) (t : Nat), NewReplyFromRequest env req = some base ∧
        ((req.MessageType = MessageTypeDiscover ∧ t = MessageTypeOffer) ∨
         (req.MessageType = MessageTypeRequest ∧ t = MessageTypeAck)) ∧
        transmissions (handler env req) =
          [(buildResponse env (env.Post (apiQuery req))
              (base.UpdateOption OptionDHCPMessageType (OptionValue.MessageType t)),
            replyPeer req
              (base.UpdateOption OptionDHCPMessageType (OptionValue.MessageType t)))]) := by
  unfold handler
  by_cases h1 : (env.Slave && env.checkHeartbeat) = true
  · left
    rw [if_pos h1]
    rfl
  · rw [if_neg h1]
    simp only
    by_cases h2 : (env.Slave && (env.Post (apiQuery req)).Slave && !env.AllowSlave) = true
    · left
      rw [if_pos h2]
      exact transmissions_done env _
    · rw [if_neg h2]
      by_cases h3 : req.OpCode ≠ OpcodeBootRequest
      · left
        rw [if_pos h3]
        exact transmissions_done env _
      · rw [if_neg h3]
        cases hb : NewReplyFromRequest env req with
        | none =>
          left
          exact transmissions_done env _
        | some base =>
          simp only
          by_cases h4 : req.MessageType = MessageTypeDiscover
          · right
            rw [if_pos h4]
            refine ⟨by simpa using h1, by simpa using h3, base, MessageTypeOffer, rfl,
              Or.inl ⟨h4, rfl⟩, ?_⟩
            rw [transmissions_append, transmissions_done, transmissions_sendReply]
            rfl
          · rw [if_neg h4]
            by_cases h5 : req.MessageType = MessageTypeRequest
            · right
              rw [if_pos h5]
              refine ⟨by simpa using h1, by simpa using h3, base, MessageTypeAck, rfl,
                Or.inr ⟨h5, rfl⟩, ?_⟩
              rw [transmissions_append, transmissions_done, transmissions_sendReply]
              rfl
            · left
              rw [if_neg h5]
              exact transmissions_done env _

theorem replyPeer_eq_specDestination (req resp : DHCPv4) :
    replyPeer req resp =
      specDestination req.GatewayIPAddr req.ClientIPAddr req.IsBroadcast resp.MessageType := by
  unfold replyPeer specDestination
  cases h1 : IsUnspecified req.GatewayIPAddr <;> cases h2 : IsUnspecified req.ClientIPAddr <;>
    cases h3 : req.IsBroadcast <;> simp [ServerPort, ClientPort]

/-! ## Claims about the daemon -/

/-- Claim C8: the destination of every reply `handler` sends is the one the
rules of the specification give, first match wins: the relay agent address on
port 67 when it is specified, else the broadcast address on port 68 for a NAK,
else the client address on port 68 when it is specified, else the broadcast
address on port 68 (broadcast flag set or not).  It is a function of the
relay agent address, the client address and the broadcast flag of the request
and of the type of the reply. -/
theorem reply_destination (env : Env) (req resp : DHCPv4) (peer : UDPAddr)
    (hsent : (resp, peer) ∈ transmissions (handler env req)) :
    peer = specDestination req.GatewayIPAddr req.ClientIPAddr req.IsBroadcast resp.MessageType := by
  rcases transmissions_handler env req with h | ⟨_, _, base, t, _, _, h⟩
  · rw [h] at hsent
    cases hsent
  · rw [h] at hsent
    simp only [List.mem_singleton, Prod.mk.injEq] at hsent
    obtain ⟨hr, hp⟩ := hsent
    rw [hp, hr, buildResponse_MessageType]
    exact replyPeer_eq_specDestination _ _

/-- Claim C8 for a Discover without relay and client address: the Offer goes to
the broadcast address on port 68. -/
theorem reply_destination_witness :
    (sampleOffer, ({ IP := IPv4bcast, Port := 68 } : UDPAddr)) ∈
      transmissions (handler sampleEnv discoverPacket) ∧
    ({ IP := IPv4bcast, Port := 68 } : UDPAddr) =
      specDestination discoverPacket.GatewayIPAddr discoverPacket.ClientIPAddr
        discoverPacket.IsBroadcast sampleOffer.MessageType :=
  ⟨List.mem_singleton.2 rfl,
    reply_destination sampleEnv discoverPacket sampleOffer { IP := IPv4bcast, Port := 68 }
      (List.mem_singleton.2 rfl)⟩

/-- Claim C9: `handler` transmits at most one reply; when it transmits one, the
opcode of the request is BootRequest, its message type is Discover or Request,
and in standby role the heartbeat probe did not succeed; the reply has type
Offer for a Discover and Ack for a Request, and no other type.  In standby role
with the peer reachable nothing is transmitted and the API is not called. -/
theorem handler_reply_conditions (env : Env) (req : DHCPv4) :
    (transmissions (handler env req)).length ≤ 1 ∧
    (∀ (resp : DHCPv4) (peer : UDPAddr), (resp, peer) ∈ transmissions (handler env req) →
      req.OpCode = OpcodeBootRequest ∧
      (req.MessageType = MessageTypeDiscover ∨ req.MessageType = MessageTypeRequest) ∧
      (env.Slave = true → env.checkHeartbeat = false) ∧
      (req.MessageType = MessageTypeDiscover → resp.MessageType = MessageTypeOffer) ∧
      (req.MessageType = MessageTypeRequest → resp.MessageType = MessageTypeAck) ∧
      (resp.MessageType = MessageTypeOffer ∨ resp.MessageType = MessageTypeAck)) ∧
    (env.Slave = true → env.checkHeartbeat = true →
      transmissions (handler env req) = [] ∧ apiCalls (handler env req) = []) := by
  refine ⟨?_, ?_, ?_⟩
  · rcases transmissions_handler env req with h | ⟨_, _, base, t, _, _, h⟩ <;> rw [h] <;> simp
  · intro resp peer hsent
    rcases transmissions_handler env req with h | ⟨hs, hop, base, t, _, ht, h⟩
    · rw [h] at hsent
      cases hsent
    · rw [h] at hsent
      simp only [List.mem_singleton, Prod.mk.injEq] at hsent
      obtain ⟨hr, _⟩ := hsent
      have hmt : resp.MessageType = t := by
        rw [hr, buildResponse_MessageType, MessageType_UpdateOption]
      refine ⟨hop, ?_, ?_, ?_, ?_, ?_⟩
      · rcases ht with ⟨h1, _⟩ | ⟨h1, _⟩
        · exact Or.inl h1
        · exact Or.inr h1
      · intro hsl
        rw [hsl] at hs
        simpa using hs
      · intro hd
        rcases ht with ⟨_, h2⟩ | ⟨h1, _⟩
        · rw [hmt, h2]
        · rw [hd] at h1
          exact absurd h1 (by decide)
      · intro hd
        rcases ht with ⟨h1, _⟩ | ⟨_, h2⟩
        · rw [hd] at h1
          exact absurd h1 (by decide)
        · rw [hmt, h2]
      · rcases ht with ⟨_, h2⟩ | ⟨_, h2⟩
        · exact Or.inl (by rw [hmt, h2])
        · exact Or.inr (by rw [hmt, h2])
  · intro hsl hhb
    have h1 : (env.Slave && env.checkHeartbeat) = true := by simp [hsl, hhb]
    unfold handler
    rw [if_pos h1]
    exact ⟨rfl, rfl⟩

/-- Claim C9 for a Discover at an active daemon: one reply, an Offer, after one
call of the API. -/
theorem handler_reply_conditions_witness :
    transmissions (handler sampleEnv discoverPacket) =
      [(sampleOffer, { IP := IPv4bcast, Port := 68 })] ∧
    apiCalls (handler sampleEnv discoverPacket) = [apiQuery discoverPacket] ∧
    discoverPacket.MessageType = MessageTypeDiscover ∧
    sampleOffer.MessageType = MessageTypeOffer :=
  ⟨rfl, rfl, rfl,
    ((handler_reply_conditions sampleEnv discoverPacket).2.1 sampleOffer
      { IP := IPv4bcast, Port := 68 } (List.mem_singleton.2 rfl)).2.2.2.1 rfl⟩

/-- Claim C10 as amended: in every reply `handler` sends, built from the lease
the API returned, the server identifier option (54) is the configured server
IP; `YourIPAddr` is the parsed `ip` of the lease when that is not empty and
stays the zero address otherwise; the lease time option (51) is always present
and carries the lease time in whole seconds, zero included; each of the
options subnet mask (1), broadcast (28), router (3), NTP (42), domain search
(119, the code `dhcpv4.OptDomainSearch` writes) and DNS (6) is present if and
only if the lease field `prefix`, `broadcast`, `gateway`, `ntp`, `domain`,
`dns` is not empty; and option 117 is never present. -/
theorem reply_options (env : Env) (req resp : DHCPv4) (peer : UDPAddr)
    (hsent : (resp, peer) ∈ transmissions (handler env req)) :
    resp.Options.lookup OptionServerIdentifier = some (OptionValue.IP env.serverID) ∧
    ((env.Post (apiQuery req)).ClientIP ≠ "" →
      resp.YourIPAddr = ParseIP env.net (env.Post (apiQuery req)).ClientIP) ∧
    ((env.Post (apiQuery req)).ClientIP = "" → resp.YourIPAddr = IPv4zero) ∧
    resp.Options.lookup OptionIPAddressLeaseTime =
      some (OptIPAddressLeaseTime (env.Post (apiQuery req)).LeaseTime) ∧
    ((resp.Options.lookup OptionSubnetMask).isSome ↔ (env.Post (apiQuery req)).Prefix ≠ "") ∧
    ((resp.Options.lookup OptionBroadcastAddress).isSome ↔
      (env.Post (apiQuery req)).Broadcast ≠ "") ∧
    ((resp.Options.lookup OptionRouter).isSome ↔ (env.Post (apiQuery req)).GatewayIP ≠ "") ∧
    ((resp.Options.lookup OptionNTPServers).isSome ↔ (env.Post (apiQuery req)).NTP ≠ "") ∧
    ((resp.Options.lookup OptionDNSDomainSearchList).isSome ↔
      (env.Post (apiQuery req)).Domain ≠ "") ∧
    ((resp.Options.lookup OptionDomainNameServer).isSome ↔
      (env.Post (apiQuery req)).DNS ≠ "") ∧
    resp.Options.lookup OptionNameServiceSearch = none := by
  rcases transmissions_handler env req with h | ⟨_, _, base, t, hb, _, h⟩
  · rw [h] at hsent
    cases hsent
  · rw [h] at hsent
    simp only [List.mem_singleton, Prod.mk.injEq] at hsent
    obtain ⟨hr, _⟩ := hsent
    obtain ⟨hyour, hf⟩ := NewReplyFromRequest_some env req base hb
    have hbase : ∀ c : Nat, c ∈ [1, 3, 6, 28, 42, 117, 119] →
        (base.UpdateOption OptionDHCPMessageType (OptionValue.MessageType t)).Options.lookup c
          = none := by
      intro c hc
      simp only [List.mem_cons, List.mem_singleton, List.not_mem_nil, or_false] at hc
      have h53 : c ≠ OptionDHCPMessageType := by
        unfold OptionDHCPMessageType
        omega
      have h61 : c ≠ OptionClientIdentifier := by
        unfold OptionClientIdentifier
        omega
      have h82 : c ≠ OptionRelayAgentInformation := by
        unfold OptionRelayAgentInformation
        omega
      rw [lookup_UpdateOption, if_neg h53]
      exact hf c h61 h82
    rw [hr]
    refine ⟨?_, ?_, ?_, ?_, ?_, ?_, ?_, ?_, ?_, ?_, ?_⟩
    · rw [buildResponse_lookup]
      simp [OptionServerIdentifier]
    · intro hip
      rw [buildResponse_YourIPAddr, if_pos hip]
    · intro hip
      rw [buildResponse_YourIPAddr, if_neg (by simpa using hip)]
      exact hyour
    · rw [buildResponse_lookup]
      simp [OptionIPAddressLeaseTime]
    · rw [buildResponse_lookup]
      by_cases hx : (env.Post (apiQuery req)).Prefix = "" <;>
        simp [OptionSubnetMask, hx, hbase 1 (by decide)]
    · rw [buildResponse_lookup]
      by_cases hx : (env.Post (apiQuery req)).Broadcast = "" <;>
        simp [OptionBroadcastAddress, hx, hbase 28 (by decide)]
    · rw [buildResponse_lookup]
      by_cases hx : (env.Post (apiQuery req)).GatewayIP = "" <;>
        simp [OptionRouter, hx, hbase 3 (by decide)]
    · rw [buildResponse_lookup]
      by_cases hx : (env.Post (apiQuery req)).NTP = "" <;>
        simp [OptionNTPServers, hx, hbase 42 (by decide)]
    · rw [buildResponse_lookup]
      by_cases hx : (env.Post (apiQuery req)).Domain = "" <;>
        simp [OptionDNSDomainSearchList, hx, hbase 119 (by decide)]
    · rw [buildResponse_lookup]
      by_cases hx : (env.Post (apiQuery req)).DNS = "" <;>
        simp [OptionDomainNameServer, hx, hbase 6 (by decide)]
    · rw [buildResponse_lookup]
      simp [OptionNameServiceSearch, hbase 117 (by decide)]

/-- Claim C10 as amended, for the Offer to a known MAC address: server
identifier, lease time (7200 seconds for the lease of two hours) and subnet
mask are set, DNS is absent as the group has no `dns` field. -/
theorem reply_options_witness :
    (sampleOffer, ({ IP := IPv4bcast, Port := 68 } : UDPAddr)) ∈
      transmissions (handler sampleEnv discoverPacket) ∧
    sampleOffer.Options.lookup OptionServerIdentifier
      = some (OptionValue.IP sampleEnv.serverID) ∧
    sampleOffer.Options.lookup OptionIPAddressLeaseTime
      = some (OptIPAddressLeaseTime (sampleEnv.Post (apiQuery discoverPacket)).LeaseTime) ∧
    (sampleEnv.Post (apiQuery discoverPacket)).LeaseTime = 7200000000000 ∧
    OptIPAddressLeaseTime 7200000000000 = OptionValue.Duration 7200 ∧
    ((sampleOffer.Options.lookup OptionSubnetMask).isSome ↔
      (sampleEnv.Post (apiQuery discoverPacket)).Prefix ≠ "") ∧
    ((sampleOffer.Options.lookup OptionDomainNameServer).isSome ↔
      (sampleEnv.Post (apiQuery discoverPacket)).DNS ≠ "") ∧
    (sampleEnv.Post (apiQuery discoverPacket)).DNS = "" :=
  have h := reply_options sampleEnv discoverPacket sampleOffer { IP := IPv4bcast, Port := 68 }
    (List.mem_singleton.2 rfl)
  ⟨List.mem_singleton.2 rfl, h.1, h.2.2.2.1, by decide, by decide, h.2.2.2.2.1,
    h.2.2.2.2.2.2.2.2.2.1, by decide⟩

/-- Claim C10 as stated fails in two places.  Lease time: when the API call
leaves the zero lease (lease time zero), the reply still carries the lease time
option (51), with the value zero.  Domain search: for a lease with a domain
list the reply carries no option 117; the list is under option 119. -/
theorem lease_time_option_counterexample :
    (deafEnv.Post (apiQuery discoverPacket)).LeaseTime = 0 ∧
    (transmissions (handler deafEnv discoverPacket)).length = 1 ∧
    (transmissions (handler deafEnv discoverPacket)).map
        (fun x => x.1.Options.lookup OptionIPAddressLeaseTime)
      = [some (OptionValue.Duration 0)] ∧
    (domainEnv.Post (apiQuery discoverPacket)).Domain = "example.org,lab.example.org" ∧
    (transmissions (handler domainEnv discoverPacket)).length = 1 ∧
    (transmissions (handler domainEnv discoverPacket)).map (fun x => x.1.Options.lookup 117)
      = [none] ∧
    (transmissions (handler domainEnv discoverPacket)).map (fun x => x.1.Options.lookup 119)
      = [some (OptionValue.Labels ["example.org", "lab.example.org"])] := by
  decide

end DhcpDaemon
